import Mathlib

/-!
# Verification of the Observability-Tool demo service (src/app/index.js)

Shallow embedding of the Express + OpenTelemetry demo application.

Modelling conventions:
* JavaScript numbers are modelled as `ℚ` (for `Math.random()` draws and
  metric values), `ℕ` (for millisecond clock readings and HTTP status
  codes) and `ℤ` (for `Math.round` results).
* `Math.random()` results are passed in explicitly as `ℚ` arguments;
  theorems that need it assume `0 ≤ r ∧ r < 1`.
* Every observable call into the OpenTelemetry API (span lifecycle,
  attribute writes, metric-instrument creation and metric writes) and
  every `console.error` is recorded as an `Event` in the order the code
  performs it; a handler is a function from its inputs to its event list
  plus its HTTP response.
* `Math.sqrt` operates on floats, so the `/cpu-intensive` handler is
  parametrised by an abstract square-root table `sqrtF : ℕ → ℚ`; its
  only property used is pointwise non-negativity, which holds of the
  real `Math.sqrt` on the non-negative inputs `0 .. 999999`.
-/

namespace ObsTool

/-- Attribute values attached to spans (JS strings / numbers). -/
inductive AttrValue
  | str (s : String)
  | int (n : ℤ)
  | num (q : ℚ)
  deriving DecidableEq, Repr

/-- One observable telemetry / logging action performed by the app, in
program order.  Span identifiers `sid` distinguish the middleware's
request span (`requestSpanSid = 0`) from the `/db-query` child span
(`dbSpanSid = 1`). -/
inductive Event
  | createCounter (name : String)
  | createHistogram (name : String)
  | createUpDownCounter (name : String)
  | createGauge (name : String)
  | spanStart (sid : ℕ) (name : String)
  | spanSetAttr (sid : ℕ) (key : String) (value : AttrValue)
  | spanAddEvent (sid : ℕ) (name : String)
  | spanRecordException (sid : ℕ) (message : String)
  | spanSetStatus (sid : ℕ) (code : ℕ)
  | spanEnd (sid : ℕ)
  | counterAdd (name : String) (value : ℤ)
  | histogramRecord (name : String) (value : ℚ)
  | gaugeRecord (name : String) (value : ℚ)
  | consoleError (message : String)
  deriving DecidableEq, Repr

/-- Span id of the per-request span started by the middleware
(index.js line 27); it is the active span inside route handlers. -/
def requestSpanSid : ℕ := 0

/-- Span id of the `database_query` child span started by the
`/db-query` handler (index.js line 160). -/
def dbSpanSid : ℕ := 1

/-- index.js lines 10-20: the three module-level metric instruments,
created when the module loads (process startup). -/
def startupEvents : List Event :=
  [.createCounter "http_requests_total",
   .createHistogram "http_request_duration_seconds",
   .createUpDownCounter "active_connections"]

/-- An incoming HTTP request as the middleware sees it.
`userAgent = none` models a request with no `User-Agent` header
(`req.get` returns `undefined`). -/
structure Request where
  method : String
  path : String
  url : String
  userAgent : Option String
  deriving DecidableEq, Repr

/-- index.js line 31: `req.get('User-Agent') || 'unknown'`.  In JS,
`undefined` and the empty string are both falsy, so either yields
`'unknown'`. -/
def jsOrUnknown : Option String → String
  | none => "unknown"
  | some s => if s = "" then "unknown" else s

/-- index.js line 47: `res.get('Content-Length') || 0`.  A missing or
empty header is falsy and yields the number `0`; otherwise the header
string itself is used. -/
def jsOrZero : Option String → AttrValue
  | none => .int 0
  | some s => if s = "" then .int 0 else .str s

/-- index.js lines 23-40: the request-tracking middleware's entry
actions — start the request span, set its attributes, bump the request
counter and the active-connection up/down counter. -/
def middlewareEnter (req : Request) : List Event :=
  [.spanStart requestSpanSid (req.method ++ " " ++ req.path),
   .spanSetAttr requestSpanSid "http.method" (.str req.method),
   .spanSetAttr requestSpanSid "http.url" (.str req.url),
   .spanSetAttr requestSpanSid "http.user_agent" (.str (jsOrUnknown req.userAgent)),
   .counterAdd "http_requests_total" 1,
   .counterAdd "active_connections" 1]

/-- index.js lines 42-58: the `res.on('finish')` completion hook.
`startTime` and `now` are `Date.now()` readings in milliseconds;
`statusCode` is the final response status and `contentLength` the
`Content-Length` response header (absent ⇒ `none`). -/
def finishHook (req : Request) (startTime now : ℕ) (statusCode : ℕ)
    (contentLength : Option String) : List Event :=
  [.spanSetAttr requestSpanSid "http.status_code" (.int statusCode),
   .spanSetAttr requestSpanSid "http.response_size" (jsOrZero contentLength),
   .histogramRecord "http_request_duration_seconds" (((now - startTime : ℕ) : ℚ) / 1000),
   .counterAdd "active_connections" (-1),
   .spanEnd requestSpanSid]

/-- `q` rounded to 3 decimals of precision (the spec's reading of the
recorded duration). -/
def round3 (q : ℚ) : ℚ := ((round (q * 1000) : ℤ) : ℚ) / 1000

/-- index.js line 75: `Math.floor(Math.random() * 500)`. -/
def helloDelay (r : ℚ) : ℕ := Nat.floor (r * 500)

/-- The base-36 digit characters used by `Number.prototype.toString(36)`. -/
def base36Digit (n : ℕ) : Char :=
  "0123456789abcdefghijklmnopqrstuvwxyz".toList.getD n '0'

/-- index.js line 86: `Math.random().toString(36).substr(2, 9)` —
the first nine base-36 fraction digits of the draw `r ∈ [0,1)`
(modelled without JS's trailing-zero trimming, which only shortens the
string). -/
def jsRandomId (r : ℚ) : String :=
  String.mk ((List.range 9).map
    (fun k => base36Digit (Int.toNat (Int.floor (r * (36:ℚ) ^ (k + 1)) % 36))))

/-- Response body of `GET /hello` (index.js lines 83-87). -/
structure HelloBody where
  message : String
  delay : ℕ
  requestId : String
  deriving DecidableEq, Repr

/-- Result of running the `/hello` handler: its telemetry events, the
number of milliseconds the `setTimeout` suspends before the response is
sent, and the response body. -/
structure HelloResult where
  events : List Event
  waitMs : ℕ
  body : HelloBody
  deriving DecidableEq, Repr

/-- index.js lines 74-89: the `GET /hello` handler.  `rDelay` is the
`Math.random()` draw for the delay, `rId` the draw for the request id.
The active span is the middleware's request span. -/
def helloHandler (rDelay rId : ℚ) : HelloResult :=
  let delay := helloDelay rDelay
  { events := [.spanAddEvent requestSpanSid "Processing hello request"],
    waitMs := delay,
    body := { message := "Hello, Observability from Node.js!",
              delay := delay,
              requestId := jsRandomId rId } }

/-- Response body of `GET /flaky`: either the error body or the success
body (index.js lines 102 and 106-110). -/
inductive FlakyBody
  | failure (error : String)
  | ok (message : String) (timestamp : String) (success : Bool)
  deriving DecidableEq, Repr

/-- Result of running the `/flaky` handler. -/
structure FlakyResult where
  events : List Event
  status : ℕ
  body : FlakyBody
  deriving DecidableEq, Repr

/-- index.js lines 92-111: the `GET /flaky` handler.  `r` is the
`Math.random()` draw; `shouldFail = r < 0.3`. -/
def flakyHandler (r : ℚ) (nowIso : String) : FlakyResult :=
  if r < 3/10 then
    { events := [.spanRecordException requestSpanSid "Simulated random error",
                 .spanSetStatus requestSpanSid 2,
                 .consoleError "Flaky endpoint error: Simulated random error"],
      status := 500,
      body := .failure "Something went wrong!" }
  else
    { events := [.spanAddEvent requestSpanSid "Flaky endpoint succeeded"],
      status := 200,
      body := .ok "Success!" nowIso true }

/-- index.js line 119: the fixed iteration count of `/cpu-intensive`. -/
def cpuIterations : ℕ := 1000000

/-- index.js lines 120-124: the accumulation loop
`for (i = 0; i < iterations; i++) result += Math.sqrt(i) * Math.random()`,
with `sqrtF` the square-root table and `rand i` the `i`-th draw. -/
def cpuResult (sqrtF rand : ℕ → ℚ) : ℚ :=
  ∑ i ∈ Finset.range cpuIterations, sqrtF i * rand i

/-- Response body of `GET /cpu-intensive` (index.js lines 128-133). -/
structure CpuBody where
  message : String
  iterations : ℕ
  result : ℤ
  timestamp : String
  deriving DecidableEq, Repr

/-- Result of running the `/cpu-intensive` handler. -/
structure CpuResult where
  events : List Event
  body : CpuBody
  deriving DecidableEq, Repr

/-- index.js lines 114-134: the `GET /cpu-intensive` handler. -/
def cpuIntensiveHandler (sqrtF rand : ℕ → ℚ) (nowIso : String) : CpuResult :=
  { events := [.spanAddEvent requestSpanSid "Starting CPU intensive operation",
               .spanAddEvent requestSpanSid "CPU intensive operation completed"],
    body := { message := "CPU intensive operation completed",
              iterations := cpuIterations,
              result := round (cpuResult sqrtF rand),
              timestamp := nowIso } }

/-- A `process.memoryUsage()` snapshot, in raw bytes. -/
structure MemoryUsage where
  heapUsed : ℕ
  heapTotal : ℕ
  extMem : ℕ
  rss : ℕ
  deriving DecidableEq, Repr

/-- index.js lines 149-152: `Math.round(bytes / 1024 / 1024)` rendered
as a `"<n> MB"` string. -/
def mbString (bytes : ℕ) : String :=
  toString (round ((bytes : ℚ) / 1024 / 1024)) ++ " MB"

/-- Response body of `GET /memory` (index.js lines 147-155). -/
structure MemoryBody where
  heapUsed : String
  heapTotal : String
  extMem : String
  rss : String
  timestamp : String
  deriving DecidableEq, Repr

/-- Result of running the `/memory` handler. -/
structure MemoryResult where
  events : List Event
  body : MemoryBody
  deriving DecidableEq, Repr

/-- index.js lines 137-156: the `GET /memory` handler.  Note the span
attributes cover `heap_used`, `heap_total` and `external` only — the
code sets no `memory.rss` attribute, although `rss` appears in the
response body. -/
def memoryHandler (usage : MemoryUsage) (nowIso : String) : MemoryResult :=
  { events := [.spanSetAttr requestSpanSid "memory.heap_used" (.int usage.heapUsed),
               .spanSetAttr requestSpanSid "memory.heap_total" (.int usage.heapTotal),
               .spanSetAttr requestSpanSid "memory.external" (.int usage.extMem)],
    body := { heapUsed := mbString usage.heapUsed,
              heapTotal := mbString usage.heapTotal,
              extMem := mbString usage.extMem,
              rss := mbString usage.rss,
              timestamp := nowIso } }

/-- index.js line 170: `Math.floor(Math.random() * 200) + 50`. -/
def dbQueryTime (r : ℚ) : ℕ := Nat.floor (r * 200) + 50

/-- Result of running the `/db-query` handler: telemetry events, status,
milliseconds suspended awaiting the simulated query, and the
`queryTime` body field (`none` on the error path, whose body is the
fixed `{ error: "Database error" }`). -/
structure DbResult where
  events : List Event
  status : ℕ
  waitMs : ℕ
  queryTimeField : Option String
  deriving DecidableEq, Repr

/-- index.js lines 159-192: the `GET /db-query` handler.  `thrown = none`
is the normal path; `thrown = some msg` models the `try` body throwing
an error with message `msg` during the awaited query (the only
fallible step), in which case the `catch` records the exception and
answers 500 and the `finally` still ends the child span. -/
def dbQueryHandler (r : ℚ) (thrown : Option String) (nowIso : String) : DbResult :=
  let qt := dbQueryTime r
  match thrown with
  | none =>
    { events := [.spanStart dbSpanSid "database_query",
                 .spanSetAttr dbSpanSid "db.system" (.str "postgresql"),
                 .spanSetAttr dbSpanSid "db.operation" (.str "SELECT"),
                 .spanSetAttr dbSpanSid "db.table" (.str "users"),
                 .spanAddEvent dbSpanSid "Query executed successfully",
                 .spanSetStatus dbSpanSid 1,
                 .spanEnd dbSpanSid],
      status := 200,
      waitMs := qt,
      queryTimeField := some (toString qt ++ "ms") }
  | some msg =>
    { events := [.spanStart dbSpanSid "database_query",
                 .spanSetAttr dbSpanSid "db.system" (.str "postgresql"),
                 .spanSetAttr dbSpanSid "db.operation" (.str "SELECT"),
                 .spanSetAttr dbSpanSid "db.table" (.str "users"),
                 .spanRecordException dbSpanSid msg,
                 .spanSetStatus dbSpanSid 2,
                 .spanEnd dbSpanSid],
      status := 500,
      waitMs := qt,
      queryTimeField := none }

/-- Response body of `GET /metrics-demo` (index.js lines 203-210); the
`values` fields are freshly drawn, not the recorded gauge readings. -/
structure MetricsDemoBody where
  message : String
  timestamp : String
  customValue : ℚ
  temperature : ℚ
  deriving DecidableEq, Repr

/-- Result of running the `/metrics-demo` handler. -/
structure MetricsDemoResult where
  events : List Event
  body : MetricsDemoBody
  deriving DecidableEq, Repr

/-- index.js lines 195-211: the `GET /metrics-demo` handler.  It calls
`meter.createGauge` twice — inside the handler, on every request —
records `r1·100` and `20 + r2·10`, and echoes independently drawn
`r3·100` and `20 + r4·10` in the body. -/
def metricsDemoHandler (r1 r2 r3 r4 : ℚ) (nowIso : String) : MetricsDemoResult :=
  { events := [.createGauge "demo_custom_value",
               .gaugeRecord "demo_custom_value" (r1 * 100),
               .createGauge "room_temperature_celsius",
               .gaugeRecord "room_temperature_celsius" (20 + r2 * 10)],
    body := { message := "Custom metrics generated",
              timestamp := nowIso,
              customValue := r3 * 100,
              temperature := 20 + r4 * 10 } }

/-- A thrown JS `Error` as the generic error handler receives it. -/
structure JsError where
  message : String
  stack : String
  deriving DecidableEq, Repr

/-- Response body of the generic error handler (index.js lines 229-232). -/
structure ErrorBody where
  error : String
  timestamp : String
  deriving DecidableEq, Repr

/-- Result of running the generic error handler. -/
structure ErrorHandlerResult where
  events : List Event
  status : ℕ
  body : ErrorBody
  deriving DecidableEq, Repr

/-- index.js lines 223-233: the catch-all error handler.  It records the
exception on the active span and logs it, but the client response is a
fixed generic 500 body (plus the timestamp) mentioning nothing of
`err`. -/
def errorHandler (err : JsError) (nowIso : String) : ErrorHandlerResult :=
  { events := [.spanRecordException requestSpanSid err.message,
               .consoleError ("Unhandled error: " ++ err.message)],
    status := 500,
    body := { error := "Internal Server Error", timestamp := nowIso } }

/-- The app's registered routes, plus the 404 catch-all. -/
inductive Route
  | health
  | hello
  | flaky
  | cpuIntensive
  | memory
  | dbQuery
  | metricsDemo
  | notFound
  deriving DecidableEq, Repr

/-- Dispatch a route to its handler, yielding the handler's telemetry
events and the response status code.  `ρ` is the stream of
`Math.random()` draws consumed by the handler, `sqrtF` the square-root
table for `/cpu-intensive`, `dbThrow` the optional error thrown inside
`/db-query`'s `try`, `usage` the `/memory` snapshot. -/
def routeRun (route : Route) (ρ sqrtF : ℕ → ℚ) (dbThrow : Option String)
    (usage : MemoryUsage) (nowIso : String) : List Event × ℕ :=
  match route with
  | .health => ([], 200)
  | .hello => ((helloHandler (ρ 0) (ρ 1)).events, 200)
  | .flaky => ((flakyHandler (ρ 0) nowIso).events, (flakyHandler (ρ 0) nowIso).status)
  | .cpuIntensive => ((cpuIntensiveHandler sqrtF ρ nowIso).events, 200)
  | .memory => ((memoryHandler usage nowIso).events, 200)
  | .dbQuery => ((dbQueryHandler (ρ 0) dbThrow nowIso).events,
                 (dbQueryHandler (ρ 0) dbThrow nowIso).status)
  | .metricsDemo => ((metricsDemoHandler (ρ 0) (ρ 1) (ρ 2) (ρ 3) nowIso).events, 200)
  | .notFound => ([], 404)

/-- The full telemetry trace of one request that completes without an
unhandled exception: middleware entry, handler, then the `finish`
hook (which Express fires when the response has been written). -/
def requestTrace (req : Request) (route : Route) (ρ sqrtF : ℕ → ℚ)
    (dbThrow : Option String) (usage : MemoryUsage) (nowIso : String)
    (startTime now : ℕ) (contentLength : Option String) : List Event :=
  middlewareEnter req ++ (routeRun route ρ sqrtF dbThrow usage nowIso).1 ++
    finishHook req startTime now (routeRun route ρ sqrtF dbThrow usage nowIso).2 contentLength

/-- The full telemetry trace of one request whose handler throws an
unhandled exception after emitting `handlerEvents`: Express routes the
error to the generic error handler, which responds 500, and the
`finish` hook still fires when that response is written. -/
def requestTraceThrown (req : Request) (handlerEvents : List Event) (err : JsError)
    (startTime now : ℕ) (contentLength : Option String) (nowIso : String) : List Event :=
  middlewareEnter req ++ handlerEvents ++ (errorHandler err nowIso).events ++
    finishHook req startTime now 500 contentLength

/-- The span ids started in a trace, in order. -/
def sidStarts (t : List Event) : List ℕ :=
  t.filterMap (fun e => match e with | .spanStart s _ => some s | _ => none)

/-- The span ids ended in a trace, in order. -/
def sidEnds (t : List Event) : List ℕ :=
  t.filterMap (fun e => match e with | .spanEnd s => some s | _ => none)

/-- Every span started in `t` is ended exactly once and nothing else is
ended: the started ids are pairwise distinct and the multiset of ended
ids equals the multiset of started ids. -/
def spansEndedOnce (t : List Event) : Prop :=
  (sidStarts t).Nodup ∧ (sidEnds t).Perm (sidStarts t)

/-- The deltas applied to the `active_connections` up/down counter in a
trace, in order. -/
def activeDeltas (t : List Event) : List ℤ :=
  t.filterMap (fun e => match e with
    | .counterAdd n v => if n = "active_connections" then some v else none
    | _ => none)

/-- Net change of the `active_connections` up/down counter over a trace. -/
def netActive (t : List Event) : ℤ := (activeDeltas t).sum

/-- The values recorded into the histogram named `name` in a trace. -/
def histValues (t : List Event) (name : String) : List ℚ :=
  t.filterMap (fun e => match e with
    | .histogramRecord n v => if n = name then some v else none
    | _ => none)

/-- Number of metric-instrument creations in a trace. -/
def instrumentCreations (t : List Event) : ℕ :=
  (t.filter (fun e => match e with
    | .createCounter _ => true
    | .createHistogram _ => true
    | .createUpDownCounter _ => true
    | .createGauge _ => true
    | _ => false)).length

/-- Number of instrument creations with a given name in a trace. -/
def creationsNamed (t : List Event) (name : String) : ℕ :=
  (t.filter (fun e => match e with
    | .createCounter n => n = name
    | .createHistogram n => n = name
    | .createUpDownCounter n => n = name
    | .createGauge n => n = name
    | _ => false)).length

/-- `true` iff the trace sets a span attribute with key `key`. -/
def hasAttrKey (t : List Event) (key : String) : Bool :=
  t.any (fun e => match e with | .spanSetAttr _ k _ => k = key | _ => false)

/-- The values written to span attribute `key` in a trace, in order. -/
def attrValues (t : List Event) (key : String) : List AttrValue :=
  t.filterMap (fun e => match e with
    | .spanSetAttr _ k v => if k = key then some v else none
    | _ => none)

/-! ## Helper lemmas -/

theorem sidStarts_append (s t : List Event) :
    sidStarts (s ++ t) = sidStarts s ++ sidStarts t := by
  simp [sidStarts]

theorem sidEnds_append (s t : List Event) :
    sidEnds (s ++ t) = sidEnds s ++ sidEnds t := by
  simp [sidEnds]

theorem activeDeltas_append (s t : List Event) :
    activeDeltas (s ++ t) = activeDeltas s ++ activeDeltas t := by
  simp [activeDeltas]

theorem round3_of_ms (n : ℕ) : round3 ((n : ℚ) / 1000) = (n : ℚ) / 1000 := by
  unfold round3
  rw [div_mul_cancel₀ _ (by norm_num : (1000 : ℚ) ≠ 0), round_natCast]
  push_cast
  ring

/-! ## Claims -/

/-- C2: in the middleware's response-completion hook, the one value
recorded into the `http_request_duration_seconds` histogram equals the
elapsed milliseconds `now - startTime` divided by 1000, rounded to 3
decimals of precision (the code records the unrounded quotient, which —
being an integer count of milliseconds over 1000 — already has at most
3 decimals, so it coincides with its own 3-decimal rounding). -/
theorem duration_histogram_rounded (req : Request) (startTime now : ℕ)
    (statusCode : ℕ) (contentLength : Option String) :
    histValues (finishHook req startTime now statusCode contentLength)
        "http_request_duration_seconds"
      = [round3 (((now - startTime : ℕ) : ℚ) / 1000)] := by
  simp [finishHook, histValues, round3_of_ms]

/-- C9: the generic error handler's response (status and body) does not
depend on the thrown error — two runs differing only in the error
produce identical responses, namely the fixed generic 500 body plus
the timestamp; the error's message and stack flow only into the span
exception record and the server-side log, never into the response. -/
theorem error_handler_response_independent (e1 e2 : JsError) (nowIso : String) :
    (errorHandler e1 nowIso).status = (errorHandler e2 nowIso).status ∧
    (errorHandler e1 nowIso).body = (errorHandler e2 nowIso).body ∧
    (errorHandler e1 nowIso).body
      = { error := "Internal Server Error", timestamp := nowIso } ∧
    (errorHandler e1 nowIso).status = 500 :=
  ⟨rfl, rfl, rfl, rfl⟩

/-- C10: a request carrying no `User-Agent` header gets the span
attribute `http.user_agent` set to the literal string `"unknown"` —
written exactly once, not omitted and not null. -/
theorem user_agent_unknown_attr (req : Request) (h : req.userAgent = none) :
    attrValues (middlewareEnter req) "http.user_agent" = [.str "unknown"] := by
  simp [middlewareEnter, attrValues, h, jsOrUnknown]

theorem user_agent_unknown_attr_witness :
    attrValues (middlewareEnter ⟨"GET", "/health", "/health", none⟩) "http.user_agent"
      = [.str "unknown"] :=
  user_agent_unknown_attr _ rfl

/-- C6 counterexample: at a concrete memory snapshot, the `/memory`
handler's response body carries a rounded-MB `rss` field, yet the
handler sets no `memory.rss` span attribute — refuting the claim that
every value whose rounded-MB form appears in the body (including the
resident set) is attached as a span attribute. -/
theorem memory_rss_attr_missing_cex :
    (memoryHandler ⟨1048576, 2097152, 3145728, 4194304⟩ "t").body.rss = "4 MB" ∧
    hasAttrKey (memoryHandler ⟨1048576, 2097152, 3145728, 4194304⟩ "t").events
        "memory.rss" = false := by
  constructor
  · show mbString 4194304 = "4 MB"
    unfold mbString
    rw [show ((4194304 : ℕ) : ℚ) / 1024 / 1024 = ((4 : ℤ) : ℚ) by norm_num,
      round_intCast]
    rfl
  · rfl

/-- C6 (amended): the `/memory` handler attaches the raw byte values of
heap used, heap total and external memory as span attributes (each
exactly once), but not the resident set size, which appears only in
the rounded-MB response body. -/
theorem memory_span_attrs (usage : MemoryUsage) (nowIso : String) :
    attrValues (memoryHandler usage nowIso).events "memory.heap_used"
        = [.int usage.heapUsed] ∧
    attrValues (memoryHandler usage nowIso).events "memory.heap_total"
        = [.int usage.heapTotal] ∧
    attrValues (memoryHandler usage nowIso).events "memory.external"
        = [.int usage.extMem] ∧
    hasAttrKey (memoryHandler usage nowIso).events "memory.rss" = false ∧
    (memoryHandler usage nowIso).body.rss = mbString usage.rss := by
  refine ⟨?_, ?_, ?_, ?_, rfl⟩ <;> simp [memoryHandler, attrValues, hasAttrKey]

/-- C4 counterexample: the claim that no handler creates a metric
instrument during request processing is false — the `/metrics-demo`
handler calls `meter.createGauge` twice on each invocation. -/
theorem handlers_create_instruments_cex :
    ¬ (∀ (route : Route) (ρ sqrtF : ℕ → ℚ) (dbThrow : Option String)
        (usage : MemoryUsage) (nowIso : String),
        instrumentCreations (routeRun route ρ sqrtF dbThrow usage nowIso).1 = 0) := by
  intro h
  have h2 := h .metricsDemo (fun _ => 0) (fun _ => 0) none ⟨0, 0, 0, 0⟩ "t"
  simp [routeRun, metricsDemoHandler, instrumentCreations] at h2

/-- C4 (amended): the counter, the histogram and the up/down counter are
each created exactly once at process startup, and every handler except
`GET /metrics-demo` creates no instrument during request processing;
`/metrics-demo` creates exactly two (its two gauges) on each
invocation. -/
theorem instrument_creation_profile (route : Route) (ρ sqrtF : ℕ → ℚ)
    (dbThrow : Option String) (usage : MemoryUsage) (nowIso : String) :
    creationsNamed startupEvents "http_requests_total" = 1 ∧
    creationsNamed startupEvents "http_request_duration_seconds" = 1 ∧
    creationsNamed startupEvents "active_connections" = 1 ∧
    instrumentCreations (routeRun route ρ sqrtF dbThrow usage nowIso).1
      = (if route = .metricsDemo then 2 else 0) := by
  refine ⟨by rfl, by rfl, by rfl, ?_⟩
  cases route with
  | flaky =>
      rcases lt_or_le (ρ 0) (3/10 : ℚ) with hc | hc
      · simp [routeRun, flakyHandler, if_pos hc, instrumentCreations]
      · simp [routeRun, flakyHandler, if_neg (not_lt.mpr hc), instrumentCreations]
  | dbQuery => cases dbThrow <;> rfl
  | _ => rfl

/-- C5: for every `/hello` invocation with draw `rDelay ∈ [0,1)`, the
chosen delay lies in [0,500) ms, the response is sent only after the
`setTimeout` suspension of exactly that many milliseconds, the body's
`delay` field equals the duration actually waited, and the delay is
the uniform image of the draw: it equals `k` exactly when the draw
falls in `[k/500, (k+1)/500)`, an interval of width 1/500 for each of
the 500 values. -/
theorem hello_delay_spec (rDelay rId : ℚ) (h0 : 0 ≤ rDelay) (h1 : rDelay < 1) :
    (helloHandler rDelay rId).waitMs = (helloHandler rDelay rId).body.delay ∧
    (helloHandler rDelay rId).body.delay = helloDelay rDelay ∧
    helloDelay rDelay < 500 ∧
    (∀ k : ℕ, helloDelay rDelay = k ↔
      (k : ℚ) / 500 ≤ rDelay ∧ rDelay < ((k : ℚ) + 1) / 500) := by
  refine ⟨rfl, rfl, ?_, ?_⟩
  · unfold helloDelay
    rw [Nat.floor_lt (by positivity)]
    push_cast
    linarith
  · intro k
    unfold helloDelay
    rw [Nat.floor_eq_iff (by positivity)]
    constructor
    · rintro ⟨ha, hb⟩
      constructor <;> [linarith; linarith]
    · rintro ⟨ha, hb⟩
      constructor <;> [linarith; linarith]

theorem hello_delay_spec_witness :
    (helloHandler 0 0).waitMs = (helloHandler 0 0).body.delay ∧
    (helloHandler 0 0).body.delay = helloDelay 0 ∧
    helloDelay 0 < 500 ∧
    (∀ k : ℕ, helloDelay 0 = k ↔
      (k : ℚ) / 500 ≤ 0 ∧ (0 : ℚ) < ((k : ℚ) + 1) / 500) :=
  hello_delay_spec 0 0 (le_refl 0) (by norm_num)

/-- C3: for every `/flaky` invocation with draw `r ∈ [0,1)`, the handler
answers 500 with the error body and records the simulated exception on
the active span exactly when `r < 0.3` — i.e. when `r` falls in the
interval `[0, 3/10)`, whose width under the uniform draw is exactly
0.3 — and otherwise answers 200 with the success body and records no
exception. -/
theorem flaky_failure_iff (r : ℚ) (nowIso : String) (h0 : 0 ≤ r) (h1 : r < 1) :
    (((flakyHandler r nowIso).status = 500 ∧
      (flakyHandler r nowIso).body = .failure "Something went wrong!" ∧
      Event.spanRecordException requestSpanSid "Simulated random error"
        ∈ (flakyHandler r nowIso).events)
      ↔ r ∈ Set.Ico (0 : ℚ) (3/10)) ∧
    (r ∉ Set.Ico (0 : ℚ) (3/10) →
      (flakyHandler r nowIso).status = 200 ∧
      (flakyHandler r nowIso).body = .ok "Success!" nowIso true ∧
      ∀ m, Event.spanRecordException requestSpanSid m
        ∉ (flakyHandler r nowIso).events) := by
  rcases lt_or_le r (3/10 : ℚ) with hc | hc
  · rw [flakyHandler, if_pos hc]
    refine ⟨?_, ?_⟩
    · simp [Set.mem_Ico, h0, hc]
    · intro hno
      exact absurd ⟨h0, hc⟩ hno
  · rw [flakyHandler, if_neg (not_lt.mpr hc)]
    refine ⟨?_, ?_⟩
    · simp only [Set.mem_Ico]
      constructor
      · rintro ⟨h500, -⟩
        exact absurd h500 (by norm_num)
      · rintro ⟨-, hlt⟩
        exact absurd hc (not_le.mpr hlt)
    · intro _
      refine ⟨rfl, rfl, ?_⟩
      intro m
      simp

theorem flaky_failure_iff_witness :
    (((flakyHandler 0 "t").status = 500 ∧
      (flakyHandler 0 "t").body = .failure "Something went wrong!" ∧
      Event.spanRecordException requestSpanSid "Simulated random error"
        ∈ (flakyHandler 0 "t").events)
      ↔ (0 : ℚ) ∈ Set.Ico (0 : ℚ) (3/10)) ∧
    ((0 : ℚ) ∉ Set.Ico (0 : ℚ) (3/10) →
      (flakyHandler 0 "t").status = 200 ∧
      (flakyHandler 0 "t").body = .ok "Success!" "t" true ∧
      ∀ m, Event.spanRecordException requestSpanSid m
        ∉ (flakyHandler 0 "t").events) :=
  flaky_failure_iff 0 "t" (le_refl 0) (by norm_num)

/-- C8: every `/cpu-intensive` invocation accumulates over exactly the
1,000,000 loop indices `0 .. 999999` and reports `iterations =
1000000` together with a non-negative `result` — the rounding of
`∑ i < 1000000, sqrt(i)·rᵢ`, which is non-negative because each
square root and each draw `rᵢ ∈ [0,1)` is non-negative. -/
theorem cpu_intensive_spec (sqrtF rand : ℕ → ℚ) (nowIso : String)
    (hs : ∀ i, 0 ≤ sqrtF i) (hr : ∀ i, 0 ≤ rand i ∧ rand i < 1) :
    (cpuIntensiveHandler sqrtF rand nowIso).body.iterations = 1000000 ∧
    (Finset.range cpuIterations).card = 1000000 ∧
    0 ≤ (cpuIntensiveHandler sqrtF rand nowIso).body.result := by
  refine ⟨rfl, (Finset.card_range cpuIterations).trans rfl, ?_⟩
  show (0 : ℤ) ≤ round (cpuResult sqrtF rand)
  have hsum : 0 ≤ cpuResult sqrtF rand :=
    Finset.sum_nonneg fun i _ => mul_nonneg (hs i) (hr i).1
  rw [round_eq]
  exact Int.floor_nonneg.mpr (by linarith)

theorem cpu_intensive_spec_witness :
    (cpuIntensiveHandler (fun _ => 0) (fun _ => 0) "t").body.iterations = 1000000 ∧
    (Finset.range cpuIterations).card = 1000000 ∧
    0 ≤ (cpuIntensiveHandler (fun _ => 0) (fun _ => 0) "t").body.result :=
  cpu_intensive_spec (fun _ => 0) (fun _ => 0) "t"
    (fun _ => le_refl 0) (fun _ => ⟨le_refl 0, by norm_num⟩)

theorem sidStarts_middlewareEnter (req : Request) :
    sidStarts (middlewareEnter req) = [requestSpanSid] := rfl

theorem sidEnds_middlewareEnter (req : Request) :
    sidEnds (middlewareEnter req) = [] := rfl

theorem sidStarts_finishHook (req : Request) (startTime now statusCode : ℕ)
    (contentLength : Option String) :
    sidStarts (finishHook req startTime now statusCode contentLength) = [] := rfl

theorem sidEnds_finishHook (req : Request) (startTime now statusCode : ℕ)
    (contentLength : Option String) :
    sidEnds (finishHook req startTime now statusCode contentLength)
      = [requestSpanSid] := rfl

theorem sidStarts_errorHandler (err : JsError) (nowIso : String) :
    sidStarts (errorHandler err nowIso).events = [] := rfl

theorem sidEnds_errorHandler (err : JsError) (nowIso : String) :
    sidEnds (errorHandler err nowIso).events = [] := rfl

theorem sidStarts_requestTraceThrown (req : Request) (hEv : List Event)
    (err : JsError) (startTime now : ℕ) (contentLength : Option String)
    (nowIso : String) :
    sidStarts (requestTraceThrown req hEv err startTime now contentLength nowIso)
      = requestSpanSid :: sidStarts hEv := by
  simp [requestTraceThrown, sidStarts_append, sidStarts_middlewareEnter,
    sidStarts_errorHandler, sidStarts_finishHook]

theorem sidEnds_requestTraceThrown (req : Request) (hEv : List Event)
    (err : JsError) (startTime now : ℕ) (contentLength : Option String)
    (nowIso : String) :
    sidEnds (requestTraceThrown req hEv err startTime now contentLength nowIso)
      = sidEnds hEv ++ [requestSpanSid] := by
  simp [requestTraceThrown, sidEnds_append, sidEnds_middlewareEnter,
    sidEnds_errorHandler, sidEnds_finishHook]

/-- C1: on every completion path, every span started while handling a
request is ended exactly once.  First conjunct: for every registered
route (success, client error like the 404 catch-all, and the handled
500s of `/flaky` and `/db-query` — including a `/db-query` whose `try`
body throws), the full request trace starts pairwise-distinct spans
and ends exactly that multiset of spans, the middleware's request span
being ended by the `finish` hook.  Second conjunct: the `/db-query`
handler ends its child span exactly once whether or not its body
throws.  Third conjunct: on the unhandled-exception path, any handler
prefix whose own spans are balanced and distinct from the request span
yields a fully balanced trace — the `finish` hook still ends the
request span after the generic error handler responds. -/
theorem spans_ended_once (req : Request) (route : Route) (ρ sqrtF : ℕ → ℚ)
    (dbThrow : Option String) (usage : MemoryUsage) (nowIso : String)
    (startTime now : ℕ) (contentLength : Option String) :
    spansEndedOnce
      (requestTrace req route ρ sqrtF dbThrow usage nowIso startTime now contentLength) ∧
    (∀ thrown : Option String,
      sidEnds (dbQueryHandler (ρ 0) thrown nowIso).events = [dbSpanSid]) ∧
    (∀ (hEv : List Event) (err : JsError),
      spansEndedOnce hEv →
      requestSpanSid ∉ sidStarts hEv →
      spansEndedOnce (requestTraceThrown req hEv err startTime now contentLength nowIso)) := by
  refine ⟨?_, ?_, ?_⟩
  · cases route
    case flaky =>
      rcases lt_or_le (ρ 0) (3/10 : ℚ) with hc | hc
      · simp only [requestTrace, routeRun, flakyHandler, if_pos hc]
        exact (by decide : ([0] : List ℕ).Nodup ∧ ([0] : List ℕ).Perm [0])
      · simp only [requestTrace, routeRun, flakyHandler, if_neg (not_lt.mpr hc)]
        exact (by decide : ([0] : List ℕ).Nodup ∧ ([0] : List ℕ).Perm [0])
    case dbQuery =>
      cases dbThrow
      case none =>
        exact (by decide : ([0, 1] : List ℕ).Nodup ∧ ([1, 0] : List ℕ).Perm [0, 1])
      case some =>
        exact (by decide : ([0, 1] : List ℕ).Nodup ∧ ([1, 0] : List ℕ).Perm [0, 1])
    all_goals exact (by decide : ([0] : List ℕ).Nodup ∧ ([0] : List ℕ).Perm [0])
  · intro thrown
    cases thrown <;> rfl
  · intro hEv err hbal hnotin
    obtain ⟨hnd, hperm⟩ := hbal
    constructor
    · rw [sidStarts_requestTraceThrown]
      exact List.nodup_cons.mpr ⟨hnotin, hnd⟩
    · rw [sidStarts_requestTraceThrown, sidEnds_requestTraceThrown]
      exact (List.perm_append_singleton _ _).trans (hperm.cons _)

theorem spans_ended_once_witness :
    spansEndedOnce (requestTrace ⟨"GET", "/db-query", "/db-query", none⟩ .dbQuery
      (fun _ => 0) (fun _ => 0) (some "boom") ⟨0, 0, 0, 0⟩ "t" 0 5 none) ∧
    spansEndedOnce (requestTraceThrown ⟨"GET", "/db-query", "/db-query", none⟩ []
      ⟨"boom", "s"⟩ 0 5 none "t") :=
  ⟨(spans_ended_once ⟨"GET", "/db-query", "/db-query", none⟩ .dbQuery
      (fun _ => 0) (fun _ => 0) (some "boom") ⟨0, 0, 0, 0⟩ "t" 0 5 none).1,
   (spans_ended_once ⟨"GET", "/db-query", "/db-query", none⟩ .dbQuery
      (fun _ => 0) (fun _ => 0) (some "boom") ⟨0, 0, 0, 0⟩ "t" 0 5 none).2.2
     [] ⟨"boom", "s"⟩ ⟨List.nodup_nil, List.Perm.nil⟩ (List.not_mem_nil _)⟩

theorem activeDeltas_middlewareEnter (req : Request) :
    activeDeltas (middlewareEnter req) = [1] := rfl

theorem activeDeltas_finishHook (req : Request) (startTime now statusCode : ℕ)
    (contentLength : Option String) :
    activeDeltas (finishHook req startTime now statusCode contentLength)
      = [-1] := rfl

theorem activeDeltas_errorHandler (err : JsError) (nowIso : String) :
    activeDeltas (errorHandler err nowIso).events = [] := rfl

/-- C7: the active-connection up/down counter receives exactly one `+1`
at request entry and exactly one `-1` when the response finishes, so
its net change over any completed request is 0.  First two conjuncts:
for every registered route the full trace's `active_connections`
deltas are exactly `[+1, -1]`, netting to 0.  Third conjunct: the same
holds on the unhandled-exception path for any handler prefix that does
not itself touch the counter (as none of the app's handlers do). -/
theorem active_connections_balanced (req : Request) (route : Route)
    (ρ sqrtF : ℕ → ℚ) (dbThrow : Option String) (usage : MemoryUsage)
    (nowIso : String) (startTime now : ℕ) (contentLength : Option String) :
    activeDeltas
        (requestTrace req route ρ sqrtF dbThrow usage nowIso startTime now contentLength)
      = [1, -1] ∧
    netActive
        (requestTrace req route ρ sqrtF dbThrow usage nowIso startTime now contentLength)
      = 0 ∧
    (∀ (hEv : List Event) (err : JsError),
      activeDeltas hEv = [] →
      activeDeltas (requestTraceThrown req hEv err startTime now contentLength nowIso)
          = [1, -1] ∧
      netActive (requestTraceThrown req hEv err startTime now contentLength nowIso)
          = 0) := by
  have hmain : activeDeltas
      (requestTrace req route ρ sqrtF dbThrow usage nowIso startTime now contentLength)
      = [1, -1] := by
    cases route
    case flaky =>
      rcases lt_or_le (ρ 0) (3/10 : ℚ) with hc | hc
      · simp only [requestTrace, routeRun, flakyHandler, if_pos hc]
        rfl
      · simp only [requestTrace, routeRun, flakyHandler, if_neg (not_lt.mpr hc)]
        rfl
    case dbQuery => cases dbThrow <;> rfl
    all_goals rfl
  refine ⟨hmain, ?_, ?_⟩
  · unfold netActive
    rw [hmain]
    decide
  · intro hEv err h0
    have hA : activeDeltas
        (requestTraceThrown req hEv err startTime now contentLength nowIso)
        = [1, -1] := by
      simp [requestTraceThrown, activeDeltas_append, h0,
        activeDeltas_middlewareEnter, activeDeltas_errorHandler,
        activeDeltas_finishHook]
    refine ⟨hA, ?_⟩
    unfold netActive
    rw [hA]
    decide

theorem active_connections_balanced_witness :
    activeDeltas (requestTrace ⟨"GET", "/hello", "/hello", none⟩ .hello
        (fun _ => 0) (fun _ => 0) none ⟨0, 0, 0, 0⟩ "t" 0 5 none)
      = [1, -1] ∧
    netActive (requestTrace ⟨"GET", "/hello", "/hello", none⟩ .hello
        (fun _ => 0) (fun _ => 0) none ⟨0, 0, 0, 0⟩ "t" 0 5 none)
      = 0 ∧
    (activeDeltas (requestTraceThrown ⟨"GET", "/hello", "/hello", none⟩ []
        ⟨"boom", "s"⟩ 0 5 none "t")
      = [1, -1] ∧
    netActive (requestTraceThrown ⟨"GET", "/hello", "/hello", none⟩ []
        ⟨"boom", "s"⟩ 0 5 none "t")
      = 0) :=
  ⟨(active_connections_balanced ⟨"GET", "/hello", "/hello", none⟩ .hello
      (fun _ => 0) (fun _ => 0) none ⟨0, 0, 0, 0⟩ "t" 0 5 none).1,
   (active_connections_balanced ⟨"GET", "/hello", "/hello", none⟩ .hello
      (fun _ => 0) (fun _ => 0) none ⟨0, 0, 0, 0⟩ "t" 0 5 none).2.1,
   (active_connections_balanced ⟨"GET", "/hello", "/hello", none⟩ .hello
      (fun _ => 0) (fun _ => 0) none ⟨0, 0, 0, 0⟩ "t" 0 5 none).2.2
     [] ⟨"boom", "s"⟩ rfl⟩

end ObsTool
